import Mathlib

/-
Verification of the lead-generation server: a shallow embedding of the
storage access layer (storage.ts over the schema of schema.ts), the
WebSocket connection registry and broadcaster, the HTTP route handlers,
and the campaign progress simulator (simulateScraping), all from the
TypeScript source.  Tables are lists of rows; machine numbers are Int
(the values involved are small integers, exact in both the JS runtime and
the integer columns); Math.random() draws are explicit rational
parameters in [0, 1); a rejected database promise is an explicit fault
flag.  Wall-clock time is abstracted as the state's fixed `now`; row ids
produced by gen_random_uuid() are drawn from the state's fresh-id
counter.
-/

set_option maxHeartbeats 1000000
set_option linter.unusedVariables false

namespace LeadGen

/-- Rounding as performed by Math.round: floor(x + 1/2). -/
def roundJs (q : ℚ) : Int := ⌊q + 1 / 2⌋

/-- The simulator tick's progress formula: Math.round((currentPage / totalPages) * 100).
For the arguments that occur (currentPage ≤ totalPages = 10) the computation is exact
in binary floating point, so the rational model is faithful. -/
def jsProgress (currentPage totalPages : Int) : Int :=
  roundJs ((currentPage : ℚ) / (totalPages : ℚ) * 100)

/-- Per-tick increment of the leadsFound counter: Math.floor(r * 5) + 1,
where r is a Math.random() draw. -/
def incOf (r : ℚ) : Int := ⌊r * 5⌋ + 1

/-- Validation flag sampler for generated leads: Math.random() > 0.3. -/
def validOf (r : ℚ) : Bool := decide ((3 : ℚ) / 10 < r)

/-- A row of the campaigns table (schema.ts).  The progress/totalPages/leadsFound
columns are nullable with database defaults; the application never stores NULL in
them, so they are modelled with the column's value type, defaults applied at
creation.  The decimal `delay` column reads back as a string. -/
structure Campaign where
  id : String
  userId : String
  name : String
  businessCategory : String
  location : String
  radius : Int
  scrapingMode : String
  pageLimit : Int
  delay : String
  status : String
  progress : Int
  totalPages : Int
  leadsFound : Int
  createdAt : Int
  updatedAt : Int
deriving DecidableEq

/-- A Partial Campaign as accepted by DatabaseStorage.updateCampaign: any subset of
columns to overwrite (updatedAt is always overwritten by the storage layer itself). -/
structure CampaignUpdates where
  id : Option String := none
  userId : Option String := none
  name : Option String := none
  businessCategory : Option String := none
  location : Option String := none
  radius : Option Int := none
  scrapingMode : Option String := none
  pageLimit : Option Int := none
  delay : Option String := none
  status : Option String := none
  progress : Option Int := none
  totalPages : Option Int := none
  leadsFound : Option Int := none
  createdAt : Option Int := none
deriving DecidableEq

/-- Effect of drizzle's set({...updates, updatedAt: new Date()}) on one campaign row. -/
def applyCampaignUpdates (now : Int) (u : CampaignUpdates) (c : Campaign) : Campaign :=
  { id := u.id.getD c.id
    userId := u.userId.getD c.userId
    name := u.name.getD c.name
    businessCategory := u.businessCategory.getD c.businessCategory
    location := u.location.getD c.location
    radius := u.radius.getD c.radius
    scrapingMode := u.scrapingMode.getD c.scrapingMode
    pageLimit := u.pageLimit.getD c.pageLimit
    delay := u.delay.getD c.delay
    status := u.status.getD c.status
    progress := u.progress.getD c.progress
    totalPages := u.totalPages.getD c.totalPages
    leadsFound := u.leadsFound.getD c.leadsFound
    createdAt := u.createdAt.getD c.createdAt
    updatedAt := now }

/-- A row of the leads table (schema.ts).  isValidated/isDuplicate/contactStatus
carry their column defaults when the insert omits them; the application never
stores NULL in them. -/
structure Lead where
  id : String
  campaignId : String
  businessName : String
  category : Option String
  phone : Option String
  email : Option String
  website : Option String
  address : Option String
  city : Option String
  state : Option String
  zipCode : Option String
  rating : Option String
  reviewCount : Option Int
  isValidated : Bool
  isDuplicate : Bool
  notes : Option String
  tags : Option String
  contactStatus : String
  createdAt : Int
  updatedAt : Int
deriving DecidableEq

/-- An InsertLead value (insertLeadSchema): campaignId and businessName are required,
all other columns optional. -/
structure InsertLead where
  campaignId : String
  businessName : String
  category : Option String := none
  phone : Option String := none
  email : Option String := none
  website : Option String := none
  address : Option String := none
  city : Option String := none
  state : Option String := none
  zipCode : Option String := none
  rating : Option String := none
  reviewCount : Option Int := none
  isValidated : Option Bool := none
  isDuplicate : Option Bool := none
  notes : Option String := none
  tags : Option String := none
  contactStatus : Option String := none
deriving DecidableEq

/-- A Partial Lead as accepted by DatabaseStorage.updateLead.  The outer Option is
presence of the key in the update object; for a nullable column the inner Option is
the column value (so some none sets the column to NULL). -/
structure LeadUpdates where
  id : Option String := none
  campaignId : Option String := none
  businessName : Option String := none
  category : Option (Option String) := none
  phone : Option (Option String) := none
  email : Option (Option String) := none
  website : Option (Option String) := none
  address : Option (Option String) := none
  city : Option (Option String) := none
  state : Option (Option String) := none
  zipCode : Option (Option String) := none
  rating : Option (Option String) := none
  reviewCount : Option (Option Int) := none
  isValidated : Option Bool := none
  isDuplicate : Option Bool := none
  notes : Option (Option String) := none
  tags : Option (Option String) := none
  contactStatus : Option String := none
  createdAt : Option Int := none
deriving DecidableEq

/-- Effect of drizzle's set({...updates, updatedAt: new Date()}) on one lead row. -/
def applyLeadUpdates (now : Int) (u : LeadUpdates) (l : Lead) : Lead :=
  { id := u.id.getD l.id
    campaignId := u.campaignId.getD l.campaignId
    businessName := u.businessName.getD l.businessName
    category := u.category.getD l.category
    phone := u.phone.getD l.phone
    email := u.email.getD l.email
    website := u.website.getD l.website
    address := u.address.getD l.address
    city := u.city.getD l.city
    state := u.state.getD l.state
    zipCode := u.zipCode.getD l.zipCode
    rating := u.rating.getD l.rating
    reviewCount := u.reviewCount.getD l.reviewCount
    isValidated := u.isValidated.getD l.isValidated
    isDuplicate := u.isDuplicate.getD l.isDuplicate
    notes := u.notes.getD l.notes
    tags := u.tags.getD l.tags
    contactStatus := u.contactStatus.getD l.contactStatus
    createdAt := u.createdAt.getD l.createdAt
    updatedAt := now }

/-- The relational store, restricted to the two tables the verified operations touch.
nextId supplies fresh primary keys (gen_random_uuid()); now is the fixed wall clock. -/
structure Db where
  campaigns : List Campaign
  leads : List Lead
  nextId : Nat
  now : Int
deriving DecidableEq

/-- DatabaseStorage.getCampaign: select from campaigns where id = id, first row. -/
def getCampaign (db : Db) (id : String) : Option Campaign :=
  db.campaigns.find? (fun c => decide (c.id = id))

/-- DatabaseStorage.updateCampaign: update campaigns set {...updates, updatedAt}
where id = id, returning the updated row (undefined when no row matches). -/
def updateCampaign (db : Db) (id : String) (u : CampaignUpdates) : Option Campaign × Db :=
  ((db.campaigns.find? (fun c => decide (c.id = id))).map (applyCampaignUpdates db.now u),
   { db with campaigns :=
       db.campaigns.map (fun c => if c.id = id then applyCampaignUpdates db.now u c else c) })

/-- DatabaseStorage.deleteCampaign: a single-table delete from campaigns where id = id.
No statement touches the leads table.  (The leads.campaignId foreign key of schema.ts
is declared without any ON DELETE action; its enforcement lives in the external
database engine, outside this model of the storage layer's own statements.) -/
def deleteCampaign (db : Db) (id : String) : Db :=
  { db with campaigns := db.campaigns.filter (fun c => decide (¬ c.id = id)) }

/-- Builds the stored lead row from an insert value, applying the column defaults of
schema.ts for omitted fields. -/
def leadOfInsert (now : Int) (freshId : String) (l : InsertLead) : Lead :=
  { id := freshId
    campaignId := l.campaignId
    businessName := l.businessName
    category := l.category
    phone := l.phone
    email := l.email
    website := l.website
    address := l.address
    city := l.city
    state := l.state
    zipCode := l.zipCode
    rating := l.rating
    reviewCount := l.reviewCount
    isValidated := l.isValidated.getD false
    isDuplicate := l.isDuplicate.getD false
    notes := l.notes
    tags := l.tags
    contactStatus := l.contactStatus.getD "not_contacted"
    createdAt := now
    updatedAt := now }

/-- DatabaseStorage.createLead: insert into leads returning the new row. -/
def createLead (db : Db) (l : InsertLead) : Lead × Db :=
  let newLead := leadOfInsert db.now ("lead-" ++ toString db.nextId) l
  (newLead, { db with leads := db.leads ++ [newLead], nextId := db.nextId + 1 })

/-- DatabaseStorage.getCampaignLeads: select from leads where campaignId = campaignId.
(The orderBy(desc(createdAt)) of the source orders by a timestamp that is constant
in this model, so the selection is modelled as the plain filter.) -/
def getCampaignLeads (db : Db) (campaignId : String) : List Lead :=
  db.leads.filter (fun l => decide (l.campaignId = campaignId))

/-- DatabaseStorage.updateLead: update leads set {...updates, updatedAt} where id = id,
returning the updated row. -/
def updateLead (db : Db) (id : String) (u : LeadUpdates) : Option Lead × Db :=
  ((db.leads.find? (fun l => decide (l.id = id))).map (applyLeadUpdates db.now u),
   { db with leads :=
       db.leads.map (fun l => if l.id = id then applyLeadUpdates db.now u l else l) })

/-- A by-primary-key select on the leads table, used to state that lead rows stay
queryable by id. -/
def findLead (db : Db) (id : String) : Option Lead :=
  db.leads.find? (fun l => decide (l.id = id))

/-- A message the server pushes over a WebSocket (routes.ts broadcastToUser calls).
campaign_updated carries updateCampaign's return value, which is undefined when no
row matched. -/
inductive WsMsg where
  | scrapingProgress (campaignId : String) (progress currentPage totalPages leadsFound : Int)
  | scrapingCompleted (campaignId : String)
  | campaignUpdated (campaign : Option Campaign)
deriving DecidableEq

/-- A realtime connection as the server tracks it: the optional userId tag set by an
auth message, whether the transport readyState is OPEN, and the messages delivered
to it so far via client.send. -/
structure WsClient where
  userId : Option String := none
  readyStateOpen : Bool := true
  sent : List WsMsg := []
deriving DecidableEq

/-- The parsed payload of a client WebSocket message.  The userId field is modelled
as an optional string; the empty string stands in for the remaining falsy userId
values of the runtime. -/
structure ClientData where
  type : String
  userId : Option String := none
deriving DecidableEq

/-- The condition under which the connection message handler tags the socket:
data.type === 'auth' && data.userId (truthiness of the userId). -/
def isAuthMsg (d : ClientData) : Bool :=
  decide (d.type = "auth") &&
    (match d.userId with
     | some u => decide (¬ u = "")
     | none => false)

/-- The per-connection message handler of wss.on('connection'): set the userId tag
on an auth message with a truthy userId, otherwise leave the connection unchanged;
a JSON.parse failure (the none case) is caught and only logged. -/
def handleClientMessage (ws : WsClient) (m : Option ClientData) : WsClient :=
  match m with
  | none => ws
  | some d => if isAuthMsg d then { ws with userId := d.userId } else ws

/-- A connection as it is right after the connection event: no userId tag. -/
def freshClient : WsClient := {}

/-- The state of a connection after receiving a sequence of (parse results of)
client messages, starting from a fresh connection. -/
def afterMessages (ms : List (Option ClientData)) : WsClient :=
  ms.foldl handleClientMessage freshClient

/-- Delivery of one broadcast to one connection: send exactly when the readyState is
OPEN and the connection's userId tag equals the target user id. -/
def deliverOne (userId : String) (msg : WsMsg) (c : WsClient) : WsClient :=
  if c.readyStateOpen = true ∧ c.userId = some userId then
    { c with sent := c.sent ++ [msg] }
  else c

/-- broadcastToUser of routes.ts: iterate every tracked connection, sending the
serialized message to those tagged with the target user id. -/
def broadcastToUser (clients : List WsClient) (userId : String) (msg : WsMsg) : List WsClient :=
  clients.map (deliverOne userId msg)

/-- The JSON body of a route response: an entity payload (possibly undefined, as
res.json receives when no row matched) or a bare { message } object.  An error
response carries nothing besides its message string. -/
inductive RouteBody where
  | campaignMaybe (c : Option Campaign)
  | leadMaybe (l : Option Lead)
  | leadsJson (ls : List Lead)
  | message (m : String)
deriving DecidableEq

/-- An HTTP response as the route handlers produce it. -/
structure RouteResponse where
  status : Int
  body : RouteBody
deriving DecidableEq

/-- Result of a state-changing route: the response, the store afterwards, and the
broadcasts it triggered. -/
structure RouteOutcome where
  response : RouteResponse
  db : Db
  broadcasts : List (String × WsMsg)
deriving DecidableEq

/-- GET /api/campaigns/:id.  requesterId is req.user.claims.sub; fault models the
storage promise rejecting, which the catch block maps to a generic 500.  The
handler is a total function: no path re-throws. -/
def getCampaignRoute (requesterId id : String) (db : Db) (fault : Bool) : RouteResponse :=
  if fault then { status := 500, body := RouteBody.message "Failed to fetch campaign" }
  else
    match getCampaign db id with
    | none => { status := 404, body := RouteBody.message "Campaign not found" }
    | some c => { status := 200, body := RouteBody.campaignMaybe (some c) }

/-- GET /api/campaigns/:id/leads; a storage fault maps to a generic 500. -/
def getCampaignLeadsRoute (requesterId id : String) (db : Db) (fault : Bool) : RouteResponse :=
  if fault then { status := 500, body := RouteBody.message "Failed to fetch campaign leads" }
  else { status := 200, body := RouteBody.leadsJson (getCampaignLeads db id) }

/-- PATCH /api/leads/:id; a storage fault maps to a generic 400 and leaves the
single-statement update unapplied. -/
def patchLeadRoute (requesterId id : String) (u : LeadUpdates) (db : Db) (fault : Bool) :
    RouteOutcome :=
  if fault then
    { response := { status := 400, body := RouteBody.message "Failed to update lead" }
      db := db, broadcasts := [] }
  else
    { response := { status := 200, body := RouteBody.leadMaybe (updateLead db id u).1 }
      db := (updateLead db id u).2, broadcasts := [] }

/-- PATCH /api/campaigns/:id: pass req.body straight to updateCampaign, then
broadcast campaign_updated to the requesting user. -/
def patchCampaignRoute (requesterId id : String) (u : CampaignUpdates) (db : Db)
    (fault : Bool) : RouteOutcome :=
  if fault then
    { response := { status := 400, body := RouteBody.message "Failed to update campaign" }
      db := db, broadcasts := [] }
  else
    { response := { status := 200, body := RouteBody.campaignMaybe (updateCampaign db id u).1 }
      db := (updateCampaign db id u).2
      broadcasts := [(requesterId, WsMsg.campaignUpdated (updateCampaign db id u).1)] }

/-- The state threaded through simulateScraping: the store, the broadcasts emitted
so far (tagged with the target user id), the local currentPage and leadsFound
counters, and whether clearInterval has run. -/
structure SimState where
  db : Db
  events : List (String × WsMsg)
  currentPage : Int
  leadsFound : Int
  stopped : Bool
deriving DecidableEq

/-- The local state of simulateScraping right after it is invoked. -/
def initSim (db : Db) : SimState :=
  { db := db, events := [], currentPage := 0, leadsFound := 0, stopped := false }

/-- The random draws consumed by one tick of the interval callback: rInc for the
leadsFound increment, rV1 and rV2 for the two generated leads' validation flags. -/
structure TickRand where
  rInc : ℚ
  rV1 : ℚ
  rV2 : ℚ
deriving DecidableEq

/-- The InsertLead built in the sample-lead loop of the tick, for loop index i:
businessName is Business followed by leadsFound + i. -/
def sampleLead (campaignId : String) (n : Int) (rv : ℚ) : InsertLead :=
  { campaignId := campaignId
    businessName := "Business " ++ toString n
    category := some "Sample Category"
    city := some "Sample City"
    state := some "SC"
    isValidated := some (validOf rv) }

/-- One firing of the simulateScraping interval callback, transliterated from
routes.ts: advance the page, grow leadsFound, persist progress (the persisted
totalPages column receives currentPage), insert the two sample leads, broadcast
scraping_progress, and on reaching page 10 clear the interval, mark the campaign
completed and broadcast scraping_completed.  Once the interval is cleared the
callback no longer fires. -/
def simTick (campaignId userId : String) (r : TickRand) (s : SimState) : SimState :=
  if s.stopped then s
  else
    let totalPages : Int := 10
    let currentPage := s.currentPage + 1
    let leadsFound := s.leadsFound + incOf r.rInc
    let progress := jsProgress currentPage totalPages
    let db1 := (updateCampaign s.db campaignId
      { progress := some progress, totalPages := some currentPage,
        leadsFound := some leadsFound }).2
    let db2 := (createLead db1 (sampleLead campaignId (leadsFound + 0) r.rV1)).2
    let db3 := (createLead db2 (sampleLead campaignId (leadsFound + 1) r.rV2)).2
    let events := s.events ++
      [(userId, WsMsg.scrapingProgress campaignId progress currentPage totalPages leadsFound)]
    if totalPages ≤ currentPage then
      let db4 := (updateCampaign db3 campaignId
        { status := some "completed", progress := some 100 }).2
      { db := db4
        events := events ++ [(userId, WsMsg.scrapingCompleted campaignId)]
        currentPage := currentPage, leadsFound := leadsFound, stopped := true }
    else
      { db := db3, events := events
        currentPage := currentPage, leadsFound := leadsFound, stopped := s.stopped }

/-- A simulated run: the interval callback fires once per element of rs, in order
(the single-threaded runtime runs each 2-second tick to completion). -/
def runSim (campaignId userId : String) (rs : List TickRand) (s : SimState) : SimState :=
  rs.foldl (fun s r => simTick campaignId userId r s) s

/-- Sum of the per-tick leadsFound increments determined by the draws of a run. -/
def sumIncs (rs : List TickRand) : Int := (rs.map (fun r => incOf r.rInc)).sum

/-- The tick's random draws together with whether each of its two lead inserts is
accepted by the store (ok = false models the insert promise rejecting). -/
structure TickRandE where
  rInc : ℚ
  rV1 : ℚ
  rV2 : ℚ
  ok1 : Bool
  ok2 : Bool
deriving DecidableEq

/-- The storage failure surfaced by a rejected insert. -/
inductive DbError where
  | insertFailed
deriving DecidableEq

/-- One firing of the interval callback when lead inserts may fail.  The callback
contains no try/catch, so a rejected insert aborts the callback at that await:
the earlier campaign update (and a first successful insert) stay applied, nothing
later in the callback runs — in particular no broadcast is emitted and the
completion branch is never reached — and the error escapes the callback. -/
def simTickE (campaignId userId : String) (r : TickRandE) (s : SimState) :
    SimState × Option DbError :=
  if s.stopped then (s, none)
  else
    let totalPages : Int := 10
    let currentPage := s.currentPage + 1
    let leadsFound := s.leadsFound + incOf r.rInc
    let progress := jsProgress currentPage totalPages
    let db1 := (updateCampaign s.db campaignId
      { progress := some progress, totalPages := some currentPage,
        leadsFound := some leadsFound }).2
    if r.ok1 = false then
      ({ s with db := db1, currentPage := currentPage, leadsFound := leadsFound },
       some DbError.insertFailed)
    else
      let db2 := (createLead db1 (sampleLead campaignId (leadsFound + 0) r.rV1)).2
      if r.ok2 = false then
        ({ s with db := db2, currentPage := currentPage, leadsFound := leadsFound },
         some DbError.insertFailed)
      else
        let db3 := (createLead db2 (sampleLead campaignId (leadsFound + 1) r.rV2)).2
        let events := s.events ++
          [(userId, WsMsg.scrapingProgress campaignId progress currentPage totalPages leadsFound)]
        if totalPages ≤ currentPage then
          let db4 := (updateCampaign db3 campaignId
            { status := some "completed", progress := some 100 }).2
          ({ db := db4
             events := events ++ [(userId, WsMsg.scrapingCompleted campaignId)]
             currentPage := currentPage, leadsFound := leadsFound, stopped := true }, none)
        else
          ({ db := db3, events := events
             currentPage := currentPage, leadsFound := leadsFound, stopped := s.stopped }, none)

/-- A simulated run in the presence of insert failures.  An error thrown from the
callback is unhandled anywhere in simulateScraping; under the runtime's default
unhandled-rejection policy the run does not continue, so the run halts at the
first failed operation and surfaces the error. -/
def runE (campaignId userId : String) : List TickRandE → SimState → SimState × Option DbError
  | [], s => (s, none)
  | r :: rest, s =>
    match (simTickE campaignId userId r s).2 with
    | none => runE campaignId userId rest (simTickE campaignId userId r s).1
    | some e => ((simTickE campaignId userId r s).1, some e)

/-- Closed form of the cumulative effect of ticks on one campaign row: the latest
tick's page and leadsFound values, and — when the final tick completed the run —
the completion update layered on top. -/
def runRowUpdate (cid : String) (now page lf : Int) (completed : Bool) (c : Campaign) :
    Campaign :=
  if c.id = cid then
    { c with status := if completed then "completed" else c.status
             progress := if completed then 100 else jsProgress page 10
             totalPages := page, leadsFound := lf, updatedAt := now }
  else c

/-- Closed form of a lead row generated by a tick: placeholder business data around
the counter value n, validated according to the draw rv. -/
def tickLead (cid : String) (now : Int) (idN : Nat) (n : Int) (rv : ℚ) : Lead :=
  { id := "lead-" ++ toString idN
    campaignId := cid
    businessName := "Business " ++ toString n
    category := some "Sample Category"
    phone := none, email := none, website := none, address := none
    city := some "Sample City"
    state := some "SC"
    zipCode := none, rating := none, reviewCount := none
    isValidated := validOf rv
    isDuplicate := false
    notes := none, tags := none
    contactStatus := "not_contacted"
    createdAt := now, updatedAt := now }

/-- The progress formula evaluates exactly: Math.round((p / 10) * 100) = 10 p. -/
theorem jsProgress_eq (p : Int) : jsProgress p 10 = 10 * p := by
  unfold jsProgress roundJs
  have h : ((p : ℚ) / ((10 : ℤ) : ℚ) * 100 + 1 / 2) = ((10 * p : ℤ) : ℚ) + 1 / 2 := by
    push_cast
    ring
  rw [h, Int.floor_int_add]
  norm_num

/-- Bounds of the per-tick increment for a draw in [0, 1). -/
theorem incOf_bounds (r : ℚ) (h0 : 0 ≤ r) (h1 : r < 1) : 1 ≤ incOf r ∧ incOf r ≤ 5 := by
  unfold incOf
  constructor
  · have : (0 : ℤ) ≤ ⌊r * 5⌋ := Int.floor_nonneg.mpr (by positivity)
    omega
  · have : ⌊r * 5⌋ < (5 : ℤ) := by
      rw [Int.floor_lt]
      push_cast
      nlinarith
    omega

/-- The per-row campaign update of a tick's progress write, in runRowUpdate form. -/
theorem map_progressUpdate (cid : String) (now pg lf : Int) (l : List Campaign) :
    l.map (fun c => if c.id = cid then
        applyCampaignUpdates now
          { progress := some (jsProgress pg 10), totalPages := some pg,
            leadsFound := some lf } c
      else c) = l.map (runRowUpdate cid now pg lf false) := by
  refine List.map_congr_left fun c _ => ?_
  by_cases hc : c.id = cid <;> simp [runRowUpdate, applyCampaignUpdates, hc]

/-- Layering the completion update over a tick's progress write gives the completed
runRowUpdate form. -/
theorem map_completeUpdate (cid : String) (now pg lf : Int) (l : List Campaign) :
    (l.map (runRowUpdate cid now pg lf false)).map (fun c => if c.id = cid then
        applyCampaignUpdates now { status := some "completed", progress := some 100 } c
      else c) = l.map (runRowUpdate cid now pg lf true) := by
  rw [List.map_map]
  refine List.map_congr_left fun c _ => ?_
  by_cases hc : c.id = cid <;>
    simp [runRowUpdate, applyCampaignUpdates, hc, Function.comp]

/-- The result of one firing of the interval callback when the interval has not been
cleared, in closed form. -/
theorem simTick_spec (cid uid : String) (r : TickRand) (s : SimState)
    (hstop : s.stopped = false) :
    simTick cid uid r s =
      { db :=
          { campaigns := s.db.campaigns.map
              (runRowUpdate cid s.db.now (s.currentPage + 1)
                (s.leadsFound + incOf r.rInc) (decide (10 ≤ s.currentPage + 1)))
            leads := s.db.leads ++
              [tickLead cid s.db.now s.db.nextId (s.leadsFound + incOf r.rInc) r.rV1,
               tickLead cid s.db.now (s.db.nextId + 1)
                 (s.leadsFound + incOf r.rInc + 1) r.rV2]
            nextId := s.db.nextId + 2
            now := s.db.now }
        events := s.events ++
          (uid, WsMsg.scrapingProgress cid (jsProgress (s.currentPage + 1) 10)
            (s.currentPage + 1) 10 (s.leadsFound + incOf r.rInc)) ::
          (if 10 ≤ s.currentPage + 1 then [(uid, WsMsg.scrapingCompleted cid)] else [])
        currentPage := s.currentPage + 1
        leadsFound := s.leadsFound + incOf r.rInc
        stopped := decide (10 ≤ s.currentPage + 1) } := by
  unfold simTick
  rw [hstop]
  simp only [Bool.false_eq_true, if_false]
  by_cases h10 : (10 : Int) ≤ s.currentPage + 1
  · simp only [if_pos h10, updateCampaign, createLead, leadOfInsert, sampleLead]
    rw [map_progressUpdate, map_completeUpdate]
    simp [tickLead, validOf, h10, SimState.mk.injEq, Db.mk.injEq, List.append_assoc]
  · simp only [if_neg h10, updateCampaign, createLead, leadOfInsert, sampleLead]
    rw [map_progressUpdate]
    simp [tickLead, validOf, h10, hstop, SimState.mk.injEq, Db.mk.injEq, List.append_assoc]

theorem sumIncs_nil : sumIncs [] = 0 := rfl

theorem sumIncs_cons (r : TickRand) (rs : List TickRand) :
    sumIncs (r :: rs) = incOf r.rInc + sumIncs rs := by
  simp [sumIncs]

theorem sumIncs_append (a b : List TickRand) :
    sumIncs (a ++ b) = sumIncs a + sumIncs b := by
  simp [sumIncs]

/-- Bounds on the total of the per-tick increments when every draw is in [0, 1). -/
theorem sumIncs_bounds (rs : List TickRand)
    (h : ∀ r ∈ rs, 0 ≤ r.rInc ∧ r.rInc < 1) :
    (rs.length : Int) ≤ sumIncs rs ∧ sumIncs rs ≤ 5 * rs.length := by
  induction rs with
  | nil => simp [sumIncs]
  | cons r rest ih =>
    have hr := h r (by simp)
    have hb := incOf_bounds r.rInc hr.1 hr.2
    have ihb := ih (fun x hx => h x (by simp [hx]))
    simp only [sumIncs_cons, List.length_cons]
    push_cast
    push_cast at ihb
    omega

/-- Nonnegativity of the total of the per-tick increments. -/
theorem sumIncs_nonneg (rs : List TickRand)
    (h : ∀ r ∈ rs, 0 ≤ r.rInc ∧ r.rInc < 1) : 0 ≤ sumIncs rs := by
  have := (sumIncs_bounds rs h).1
  omega

/-- Row updates of consecutive ticks collapse: the later tick's write overwrites
every column the earlier one wrote, and the earlier one does not change status. -/
theorem map_runRowUpdate_comp (cid : String) (now pg1 lf1 pg2 lf2 : Int) (flag : Bool)
    (l : List Campaign) :
    (l.map (runRowUpdate cid now pg1 lf1 false)).map (runRowUpdate cid now pg2 lf2 flag)
      = l.map (runRowUpdate cid now pg2 lf2 flag) := by
  rw [List.map_map]
  refine List.map_congr_left fun c _ => ?_
  by_cases hc : c.id = cid <;> simp [runRowUpdate, hc, Function.comp]

/-- Cumulative effect of a nonempty simulated run that stays within the ten pages:
the counters advance by the run's length and total increment, the interval is
cleared exactly on reaching page ten, every campaign row with the target id carries
the final tick's write (plus the completion write when the run finished), other
campaign rows are untouched, and the run appends two generated leads per tick, all
for the target campaign. -/
theorem runSim_spec (cid uid : String) (rs : List TickRand) :
    ∀ s : SimState, rs ≠ [] → s.stopped = false →
    s.currentPage + (rs.length : Int) ≤ 10 →
    (runSim cid uid rs s).currentPage = s.currentPage + rs.length ∧
    (runSim cid uid rs s).leadsFound = s.leadsFound + sumIncs rs ∧
    (runSim cid uid rs s).stopped = decide (s.currentPage + (rs.length : Int) = 10) ∧
    (runSim cid uid rs s).db.now = s.db.now ∧
    (runSim cid uid rs s).db.campaigns = s.db.campaigns.map
      (runRowUpdate cid s.db.now (s.currentPage + rs.length)
        (s.leadsFound + sumIncs rs) (decide (s.currentPage + (rs.length : Int) = 10))) ∧
    ∃ new : List Lead, (runSim cid uid rs s).db.leads = s.db.leads ++ new ∧
      new.length = 2 * rs.length ∧ ∀ l ∈ new, l.campaignId = cid := by
  induction rs with
  | nil => exact fun s hne => absurd rfl hne
  | cons r rest ih =>
    intro s hne hstop hle
    have hs1 := simTick_spec cid uid r s hstop
    have hrun : runSim cid uid (r :: rest) s
        = runSim cid uid rest (simTick cid uid r s) := rfl
    simp only [List.length_cons] at hle
    push_cast at hle
    have h1c : (simTick cid uid r s).currentPage = s.currentPage + 1 := by rw [hs1]
    have h1f : (simTick cid uid r s).leadsFound = s.leadsFound + incOf r.rInc := by rw [hs1]
    have h1s : (simTick cid uid r s).stopped = decide ((10 : Int) ≤ s.currentPage + 1) := by
      rw [hs1]
    have h1n : (simTick cid uid r s).db.now = s.db.now := by rw [hs1]
    have h1camp : (simTick cid uid r s).db.campaigns = s.db.campaigns.map
        (runRowUpdate cid s.db.now (s.currentPage + 1) (s.leadsFound + incOf r.rInc)
          (decide ((10 : Int) ≤ s.currentPage + 1))) := by rw [hs1]
    have h1leads : (simTick cid uid r s).db.leads = s.db.leads ++
        [tickLead cid s.db.now s.db.nextId (s.leadsFound + incOf r.rInc) r.rV1,
         tickLead cid s.db.now (s.db.nextId + 1)
           (s.leadsFound + incOf r.rInc + 1) r.rV2] := by rw [hs1]
    by_cases hrest : rest = []
    · subst hrest
      simp only [List.length_nil] at hle
      push_cast at hle
      have hrun0 : runSim cid uid [r] s = simTick cid uid r s := rfl
      refine ⟨?_, ?_, ?_, ?_, ?_,
        ⟨[tickLead cid s.db.now s.db.nextId (s.leadsFound + incOf r.rInc) r.rV1,
          tickLead cid s.db.now (s.db.nextId + 1)
            (s.leadsFound + incOf r.rInc + 1) r.rV2], ?_, by simp, ?_⟩⟩
      · rw [hrun0, h1c]
        simp
      · rw [hrun0, h1f, sumIncs_cons, sumIncs_nil]
        ring
      · rw [hrun0, h1s, decide_eq_decide]
        simp only [List.length_cons, List.length_nil]
        push_cast
        omega
      · rw [hrun0, h1n]
      · rw [hrun0, h1camp]
        simp only [List.length_cons, List.length_nil, sumIncs_cons, sumIncs_nil, add_zero]
        have e : decide ((10 : Int) ≤ s.currentPage + 1)
            = decide (s.currentPage + (((0 : Nat) + 1 : Nat) : Int) = 10) := by
          rw [decide_eq_decide]
          push_cast
          omega
        rw [e]
        push_cast
        ring_nf
      · rw [hrun0, h1leads]
      · intro l hl
        simp only [List.mem_cons, List.not_mem_nil, or_false] at hl
        rcases hl with rfl | rfl <;> simp [tickLead]
    · have hrpos : 0 < rest.length := List.length_pos.mpr hrest
      have hnot10 : ¬ ((10 : Int) ≤ s.currentPage + 1) := by omega
      have h1campf : (simTick cid uid r s).db.campaigns = s.db.campaigns.map
          (runRowUpdate cid s.db.now (s.currentPage + 1)
            (s.leadsFound + incOf r.rInc) false) := by
        rw [h1camp]
        simp [hnot10]
      obtain ⟨ih1, ih2, ih3, ih4, ih5, new2, ihl, ihlen, ihmem⟩ :=
        ih (simTick cid uid r s) hrest (by rw [h1s]; simp [hnot10]) (by rw [h1c]; omega)
      rw [h1c] at ih1 ih3 ih5
      rw [h1f] at ih2 ih5
      rw [h1n] at ih5
      rw [h1campf, map_runRowUpdate_comp] at ih5
      rw [h1n] at ih4
      rw [h1leads] at ihl
      refine ⟨?_, ?_, ?_, ?_, ?_, ?_⟩
      · rw [hrun, ih1]
        simp only [List.length_cons]
        push_cast
        ring
      · rw [hrun, ih2, sumIncs_cons]
        ring
      · rw [hrun, ih3, decide_eq_decide]
        simp only [List.length_cons]
        push_cast
        omega
      · rw [hrun, ih4]
      · rw [hrun, ih5]
        simp only [List.length_cons]
        have e1 : s.currentPage + 1 + (rest.length : Int)
            = s.currentPage + (((rest.length : Nat) + 1 : Nat) : Int) := by
          push_cast
          ring
        have e2 : s.leadsFound + incOf r.rInc + sumIncs rest
            = s.leadsFound + sumIncs (r :: rest) := by
          rw [sumIncs_cons]
          ring
        rw [e1, e2]
      · refine ⟨tickLead cid s.db.now s.db.nextId (s.leadsFound + incOf r.rInc) r.rV1 ::
          tickLead cid s.db.now (s.db.nextId + 1)
            (s.leadsFound + incOf r.rInc + 1) r.rV2 :: new2, ?_, ?_, ?_⟩
        · rw [hrun, ihl]
          simp
        · simp only [List.length_cons, ihlen]
          omega
        · intro l hl
          simp only [List.mem_cons] at hl
          rcases hl with rfl | rfl | h1
          · simp [tickLead]
          · simp [tickLead]
          · exact ihmem l h1

/-- The PATCH body that sets only the status column. -/
def statusUpdate (st : String) : CampaignUpdates := { status := some st }

/-- C2: a WebSocket connection that never sends an auth message with a truthy userId
keeps its userId tag unset, so broadcastToUser never delivers anything to it: a
single delivery leaves it unchanged, and a broadcast over any registry containing it
passes it through with its sent list untouched. -/
theorem unauthenticated_client_receives_no_broadcast
    (ms : List (Option ClientData))
    (hno : ∀ d : ClientData, some d ∈ ms → isAuthMsg d = false) :
    (afterMessages ms).userId = none ∧
    (∀ (uid : String) (msg : WsMsg),
      deliverOne uid msg (afterMessages ms) = afterMessages ms) ∧
    (∀ (uid : String) (msg : WsMsg) (pre post : List WsClient),
      broadcastToUser (pre ++ afterMessages ms :: post) uid msg
        = broadcastToUser pre uid msg ++ afterMessages ms :: broadcastToUser post uid msg) := by
  have key : ∀ (l : List (Option ClientData)) (c : WsClient), c.userId = none →
      (∀ d : ClientData, some d ∈ l → isAuthMsg d = false) →
      (l.foldl handleClientMessage c).userId = none := by
    intro l
    induction l with
    | nil => exact fun c hc _ => hc
    | cons m rest ihm =>
      intro c hc hnol
      simp only [List.foldl_cons]
      refine ihm _ ?_ (fun d hd => hnol d (by simp [hd]))
      cases m with
      | none => exact hc
      | some d =>
        have hm := hnol d (by simp)
        simp [handleClientMessage, hm, hc]
  have hnone : (afterMessages ms).userId = none := key ms freshClient rfl hno
  have hdel : ∀ (uid : String) (msg : WsMsg),
      deliverOne uid msg (afterMessages ms) = afterMessages ms := by
    intro uid msg
    unfold deliverOne
    rw [if_neg]
    rintro ⟨-, h2⟩
    rw [hnone] at h2
    exact Option.noConfusion h2
  refine ⟨hnone, hdel, fun uid msg pre post => ?_⟩
  simp [broadcastToUser, hdel uid msg]

/-- C3: deleteCampaign issues only a delete on the campaigns table: the matching
campaign rows are removed and no other campaign row is touched, while the leads
table is byte-for-byte unchanged — every lead row is still returned by the by-id
query and by getCampaignLeads afterwards. -/
theorem deleteCampaign_preserves_leads (db : Db) (id : String) :
    (deleteCampaign db id).leads = db.leads ∧
    (∀ c ∈ (deleteCampaign db id).campaigns, ¬ c.id = id) ∧
    (∀ c ∈ db.campaigns, ¬ c.id = id → c ∈ (deleteCampaign db id).campaigns) ∧
    (∀ lid : String, findLead (deleteCampaign db id) lid = findLead db lid) ∧
    (∀ cid : String, getCampaignLeads (deleteCampaign db id) cid = getCampaignLeads db cid) := by
  refine ⟨rfl, ?_, ?_, fun lid => rfl, fun cid => rfl⟩
  · intro c hc
    simp only [deleteCampaign, List.mem_filter, decide_eq_true_eq] at hc
    exact hc.2
  · intro c hc hne
    simp only [deleteCampaign, List.mem_filter, decide_eq_true_eq]
    exact ⟨hc, hne⟩

/-- C7: the PATCH campaign route performs no transition validation: whatever status
string the body carries is persisted verbatim onto every matching campaign row,
whatever status the row held before, and the route answers 200. -/
theorem patch_persists_any_status (req id st : String) (db : Db) :
    ((patchCampaignRoute req id (statusUpdate st) db false).response.status = 200) ∧
    ((patchCampaignRoute req id (statusUpdate st) db false).db.campaigns
      = db.campaigns.map (fun c => if c.id = id then
          { c with status := st, updatedAt := db.now } else c)) ∧
    (∀ c ∈ (patchCampaignRoute req id (statusUpdate st) db false).db.campaigns,
      c.id = id → c.status = st) := by
  have hmap : (patchCampaignRoute req id (statusUpdate st) db false).db.campaigns
      = db.campaigns.map (fun c => if c.id = id then
          { c with status := st, updatedAt := db.now } else c) := by
    simp only [patchCampaignRoute, Bool.false_eq_true, if_false, updateCampaign]
    refine List.map_congr_left fun c _ => ?_
    by_cases hc : c.id = id <;> simp [applyCampaignUpdates, statusUpdate, hc]
  refine ⟨rfl, hmap, ?_⟩
  intro c hc hid
  rw [hmap] at hc
  obtain ⟨c0, hc0, rfl⟩ := List.mem_map.mp hc
  by_cases h0 : c0.id = id
  · simp [h0]
  · rw [if_neg h0] at hid ⊢
    exact absurd hid h0

/-- C8: a storage fault makes the cited routes answer with a generic message — 500
on the campaign fetch, 400 on the lead patch (leaving the store untouched), 500 on
the campaign-leads fetch — and in the fault-free case the campaign fetch answers
404 exactly when no campaign with the id exists.  Every handler is a total
function into RouteResponse, so no error is re-thrown, and an error body is a bare
message string with no machine-readable code. -/
theorem route_error_taxonomy (req id : String) (u : LeadUpdates) (db : Db) :
    (getCampaignRoute req id db true
      = { status := 500, body := RouteBody.message "Failed to fetch campaign" }) ∧
    ((getCampaignRoute req id db false).status = 404 ↔ getCampaign db id = none) ∧
    (getCampaignRoute req id db false
      = match getCampaign db id with
        | none => { status := 404, body := RouteBody.message "Campaign not found" }
        | some c => { status := 200, body := RouteBody.campaignMaybe (some c) }) ∧
    ((patchLeadRoute req id u db true).response
      = { status := 400, body := RouteBody.message "Failed to update lead" }) ∧
    ((patchLeadRoute req id u db true).db = db) ∧
    (getCampaignLeadsRoute req id db true
      = { status := 500, body := RouteBody.message "Failed to fetch campaign leads" }) := by
  refine ⟨rfl, ?_, rfl, rfl, rfl, rfl⟩
  cases hgc : getCampaign db id with
  | none => simp [getCampaignRoute, hgc]
  | some c => simp [getCampaignRoute, hgc]

/-- C9: the by-id routes never consult the requesting user's identity: two
authenticated requesters always obtain identical outcomes for the same id —
there is no ownership check. -/
theorem routes_ignore_requester (uA uB id : String) (u : LeadUpdates) (db : Db)
    (fault : Bool) :
    getCampaignRoute uA id db fault = getCampaignRoute uB id db fault ∧
    getCampaignLeadsRoute uA id db fault = getCampaignLeadsRoute uB id db fault ∧
    patchLeadRoute uA id u db fault = patchLeadRoute uB id u db fault :=
  ⟨rfl, rfl, rfl⟩

/-- C1: after a completed simulated run (ten ticks with in-range draws), every
campaign row carrying the target id has status completed, progress 100, totalPages
10, and a leadsFound counter between 10 and 50. -/
theorem completed_run_persists_final_row (cid uid : String) (db : Db)
    (rs : List TickRand) (hlen : rs.length = 10)
    (hr : ∀ r ∈ rs, 0 ≤ r.rInc ∧ r.rInc < 1) :
    ∀ c ∈ (runSim cid uid rs (initSim db)).db.campaigns, c.id = cid →
      c.status = "completed" ∧ c.progress = 100 ∧ c.totalPages = 10 ∧
      10 ≤ c.leadsFound ∧ c.leadsFound ≤ 50 := by
  have hne : rs ≠ [] := by
    intro h
    rw [h] at hlen
    simp at hlen
  have hb := sumIncs_bounds rs hr
  rw [hlen] at hb
  obtain ⟨-, -, -, -, hcamp, -⟩ :=
    runSim_spec cid uid rs (initSim db) hne rfl (by simp [initSim, hlen])
  have hcamp2 : (runSim cid uid rs (initSim db)).db.campaigns
      = db.campaigns.map (runRowUpdate cid db.now 10 (sumIncs rs) true) := by
    rw [hcamp]
    simp only [initSim]
    rw [hlen]
    norm_num
  push_cast at hb
  intro c hc hid
  rw [hcamp2] at hc
  obtain ⟨c0, hc0, rfl⟩ := List.mem_map.mp hc
  by_cases h0 : c0.id = cid
  · simp only [runRowUpdate, if_pos h0]
    refine ⟨by simp, by simp, by simp, ?_, ?_⟩ <;> omega
  · simp only [runRowUpdate, if_neg h0] at hid
    exact absurd hid h0

/-- C5: one firing of the interval callback computes progress by the rounding
formula over the constant ten total pages (exactly 10 times the new page), persists
progress, the page counter into the totalPages column, and the grown leadsFound
counter onto the matching campaign rows, inserts exactly the two placeholder
sample leads whose validation flags come from the draws, and emits one
scraping_progress event to the owning user carrying campaignId, progress,
currentPage, totalPages = 10 and leadsFound (plus the completion event when page
ten is reached).  The validation flag of each generated lead holds exactly when
its uniform draw exceeds 3/10, an event of probability 7/10 on [0, 1). -/
theorem tick_effects (cid uid : String) (r : TickRand) (s : SimState)
    (hstop : s.stopped = false) :
    ((simTick cid uid r s).db.campaigns = s.db.campaigns.map
      (runRowUpdate cid s.db.now (s.currentPage + 1) (s.leadsFound + incOf r.rInc)
        (decide ((10 : Int) ≤ s.currentPage + 1)))) ∧
    (jsProgress (s.currentPage + 1) 10 = 10 * (s.currentPage + 1)) ∧
    ((simTick cid uid r s).db.leads = s.db.leads ++
      [tickLead cid s.db.now s.db.nextId (s.leadsFound + incOf r.rInc) r.rV1,
       tickLead cid s.db.now (s.db.nextId + 1)
         (s.leadsFound + incOf r.rInc + 1) r.rV2]) ∧
    ((simTick cid uid r s).events = s.events ++
      (uid, WsMsg.scrapingProgress cid (jsProgress (s.currentPage + 1) 10)
        (s.currentPage + 1) 10 (s.leadsFound + incOf r.rInc)) ::
      (if (10 : Int) ≤ s.currentPage + 1
        then [(uid, WsMsg.scrapingCompleted cid)] else [])) ∧
    (∀ x : ℚ, 0 ≤ x → x < 1 → (validOf x = true ↔ (3 : ℚ) / 10 < x)) ∧
    ((1 : ℚ) - 3 / 10 = 7 / 10) := by
  have hs1 := simTick_spec cid uid r s hstop
  refine ⟨by rw [hs1], jsProgress_eq _, by rw [hs1], by rw [hs1], ?_, by norm_num⟩
  intro x _ _
  simp [validOf]

/-- C6: within a run that stays inside the ten pages, each tick adds its draw's
increment — an integer in [1, 5] when the draw is in [0, 1) — to the leadsFound
counter, so the counter is monotonically non-decreasing across the ticks of the
run. -/
theorem leadsFound_monotone (cid uid : String) (rs : List TickRand) (s : SimState)
    (hstop : s.stopped = false) (hle : s.currentPage + (rs.length : Int) ≤ 10)
    (hr : ∀ r ∈ rs, 0 ≤ r.rInc ∧ r.rInc < 1) :
    (∀ k : Nat, (h : k < rs.length) →
      (runSim cid uid (rs.take (k + 1)) s).leadsFound
        = (runSim cid uid (rs.take k) s).leadsFound + incOf rs[k].rInc ∧
      1 ≤ incOf rs[k].rInc ∧ incOf rs[k].rInc ≤ 5) ∧
    (∀ j k : Nat, j ≤ k → k ≤ rs.length →
      (runSim cid uid (rs.take j) s).leadsFound
        ≤ (runSim cid uid (rs.take k) s).leadsFound) := by
  have hlf : ∀ m : Nat, m ≤ rs.length →
      (runSim cid uid (rs.take m) s).leadsFound = s.leadsFound + sumIncs (rs.take m) := by
    intro m hm
    rcases Nat.eq_zero_or_pos m with rfl | hpos
    · simp [runSim, sumIncs]
    · have hne : rs.take m ≠ [] := by
        have hlt : (rs.take m).length = m := by
          rw [List.length_take]
          exact Nat.min_eq_left hm
        intro h
        rw [h] at hlt
        simp at hlt
        omega
      have hcast : ((m : Nat) : Int) ≤ ((rs.length : Nat) : Int) := Int.ofNat_le.mpr hm
      obtain ⟨-, h2, -, -, -, -⟩ := runSim_spec cid uid (rs.take m) s hne hstop
        (by rw [List.length_take, Nat.min_eq_left hm]; omega)
      exact h2
  constructor
  · intro k h
    have htake : rs.take (k + 1) = rs.take k ++ [rs[k]] := by
      rw [List.take_succ, List.getElem?_eq_getElem h]
      rfl
    have hmem := List.getElem_mem h
    have hbk := incOf_bounds rs[k].rInc (hr _ hmem).1 (hr _ hmem).2
    refine ⟨?_, hbk.1, hbk.2⟩
    rw [hlf (k + 1) h, hlf k (Nat.le_of_lt h), htake, sumIncs_append]
    simp [sumIncs]
    ring
  · intro j k hjk hk
    rw [hlf j (Nat.le_trans hjk hk), hlf k hk]
    have hdecomp : rs.take k = rs.take j ++ (rs.take k).drop j := by
      conv_lhs => rw [← List.take_append_drop j (rs.take k)]
      rw [List.take_take, Nat.min_eq_left hjk]
    have hnn : 0 ≤ sumIncs ((rs.take k).drop j) := by
      refine sumIncs_nonneg _ fun x hx => hr x ?_
      exact List.take_subset k rs (List.drop_subset j (rs.take k) hx)
    calc s.leadsFound + sumIncs (rs.take j)
        ≤ s.leadsFound + (sumIncs (rs.take j) + sumIncs ((rs.take k).drop j)) := by omega
      _ = s.leadsFound + sumIncs (rs.take k) := by rw [← sumIncs_append, ← hdecomp]

/-- C10: a completed simulated run inserts exactly two lead rows per tick — twenty
rows for the campaign in total — while the persisted leadsFound counter is the
independent random total of the draws, lying in [10, 50]; the counter equals the
number of lead rows actually created exactly when that random total happens to be
twenty. -/
theorem run_inserts_twenty_leads (cid uid : String) (db : Db) (rs : List TickRand)
    (hlen : rs.length = 10) (hr : ∀ r ∈ rs, 0 ≤ r.rInc ∧ r.rInc < 1) :
    ((runSim cid uid rs (initSim db)).db.leads.countP (fun l => decide (l.campaignId = cid))
      = db.leads.countP (fun l => decide (l.campaignId = cid)) + 20) ∧
    ((runSim cid uid rs (initSim db)).db.leads.length = db.leads.length + 20) ∧
    ((runSim cid uid rs (initSim db)).leadsFound = sumIncs rs) ∧
    (10 ≤ sumIncs rs ∧ sumIncs rs ≤ 50) ∧
    (((runSim cid uid rs (initSim db)).leadsFound =
        (((runSim cid uid rs (initSim db)).db.leads.countP
            (fun l => decide (l.campaignId = cid)) : Int)
          - (db.leads.countP (fun l => decide (l.campaignId = cid)) : Int)))
      ↔ sumIncs rs = 20) := by
  have hne : rs ≠ [] := by
    intro h
    rw [h] at hlen
    simp at hlen
  have hb := sumIncs_bounds rs hr
  rw [hlen] at hb
  obtain ⟨-, h2, -, -, -, new, hleads, hnlen, hmem⟩ :=
    runSim_spec cid uid rs (initSim db) hne rfl (by simp [initSim, hlen])
  rw [hlen] at hnlen
  have hcnt : new.countP (fun l => decide (l.campaignId = cid)) = new.length :=
    List.countP_eq_length.mpr fun l hl => by simp [hmem l hl]
  have hca : (runSim cid uid rs (initSim db)).db.leads.countP
      (fun l => decide (l.campaignId = cid))
      = db.leads.countP (fun l => decide (l.campaignId = cid)) + 20 := by
    rw [hleads, List.countP_append, hcnt, hnlen]
    simp [initSim]
  have hll : (runSim cid uid rs (initSim db)).db.leads.length = db.leads.length + 20 := by
    rw [hleads, List.length_append, hnlen]
    simp [initSim]
  have hfound : (runSim cid uid rs (initSim db)).leadsFound = sumIncs rs := by
    rw [h2]
    simp [initSim]
  refine ⟨hca, hll, hfound, ⟨by omega, by omega⟩, ?_⟩
  rw [hfound, hca]
  constructor
  · intro h
    rw [h]
    push_cast
    ring
  · intro h
    rw [h]
    push_cast
    ring

/-- Splitting a run with failures at a successful prefix. -/
theorem runE_append (cid uid : String) (as : List TickRandE) :
    ∀ (bs : List TickRandE) (s s1 : SimState), runE cid uid as s = (s1, none) →
      runE cid uid (as ++ bs) s = runE cid uid bs s1 := by
  induction as with
  | nil =>
    intro bs s s1 h
    have h1 : s = s1 := congrArg Prod.fst h
    rw [List.nil_append, h1]
  | cons a rest ih =>
    intro bs s s1 h
    simp only [List.cons_append, runE] at h ⊢
    cases hA : (simTickE cid uid a s).2 with
    | none =>
      rw [hA] at h
      exact ih bs _ s1 h
    | some e =>
      rw [hA] at h
      exact absurd (congrArg Prod.snd h) (by simp)

/-- A tick whose first or second lead insert is rejected surfaces the insert error
and emits no broadcast: the partial state keeps the events it had. -/
theorem simTickE_fail (cid uid : String) (t : TickRandE) (s : SimState)
    (hstop : s.stopped = false) (hfail : t.ok1 = false ∨ t.ok2 = false) :
    (simTickE cid uid t s).2 = some DbError.insertFailed ∧
    (simTickE cid uid t s).1.events = s.events := by
  rcases hfail with h | h
  · constructor <;> simp [simTickE, hstop, h]
  · by_cases h1 : t.ok1 = false
    · constructor <;> simp [simTickE, hstop, h1]
    · constructor <;> simp [simTickE, hstop, h1, h]

/-- C4: when a tick's lead insert is rejected after a clean prefix of the run, the
error escapes uncaught (the run's outcome is the insert failure), the failing tick
emits no event — the broadcasts are exactly those of the prefix — and no later
tick executes: the outcome is independent of everything scheduled after the
failing tick. -/
theorem failed_insert_halts_run (cid uid : String) (pre post : List TickRandE)
    (t : TickRandE) (s s1 : SimState)
    (hpre : runE cid uid pre s = (s1, none)) (hstop : s1.stopped = false)
    (hfail : t.ok1 = false ∨ t.ok2 = false) :
    (runE cid uid (pre ++ t :: post) s).2 = some DbError.insertFailed ∧
    (runE cid uid (pre ++ t :: post) s).1.events = s1.events ∧
    (∀ post2 : List TickRandE,
      runE cid uid (pre ++ t :: post) s = runE cid uid (pre ++ t :: post2) s) := by
  obtain ⟨hf1, hf2⟩ := simTickE_fail cid uid t s1 hstop hfail
  have hsplit : ∀ q : List TickRandE,
      runE cid uid (pre ++ t :: q) s = ((simTickE cid uid t s1).1, some DbError.insertFailed) := by
    intro q
    rw [runE_append cid uid pre (t :: q) s s1 hpre]
    simp only [runE, hf1]
  refine ⟨by rw [hsplit post], by rw [hsplit post]; exact hf2, fun post2 => ?_⟩
  rw [hsplit post, hsplit post2]

/-- A concrete campaign row used to evaluate the theorems. -/
def campA : Campaign :=
  { id := "c1", userId := "u1", name := "Coffee shops", businessCategory := "Coffee"
    location := "Austin", radius := 10, scrapingMode := "standard", pageLimit := 50
    delay := "1.5", status := "draft", progress := 0, totalPages := 0, leadsFound := 0
    createdAt := 0, updatedAt := 0 }

/-- A second campaign row, owned by the same user, with a different id. -/
def campB : Campaign := { campA with id := "c2", name := "Bakeries" }

/-- A concrete lead row of campaign c1. -/
def leadA : Lead :=
  { id := "l1", campaignId := "c1", businessName := "Acme", category := none
    phone := none, email := none, website := none, address := none, city := none
    state := none, zipCode := none, rating := none, reviewCount := none
    isValidated := false, isDuplicate := false, notes := none, tags := none
    contactStatus := "not_contacted", createdAt := 0, updatedAt := 0 }

/-- A concrete store with two campaigns and one lead. -/
def dbA : Db := { campaigns := [campA, campB], leads := [leadA], nextId := 0, now := 0 }

/-- A concrete set of tick draws: increment draw 1/2 (so the increment is 3). -/
def tickA : TickRand := { rInc := 1 / 2, rV1 := 1 / 2, rV2 := 1 / 10 }

/-- Ten concrete ticks: a full simulated run. -/
def rs10 : List TickRand :=
  [tickA, tickA, tickA, tickA, tickA, tickA, tickA, tickA, tickA, tickA]

/-- The c1 row expected after the concrete run completes. -/
def rowA : Campaign :=
  { campA with status := "completed", progress := 100, totalPages := 10, leadsFound := 30 }

/-- The c1 row expected after patching an arbitrary status string. -/
def rowBogus : Campaign := { campA with status := "anything-goes" }

/-- A concrete successful tick for the failing-run scenario. -/
def tickOkE : TickRandE := { rInc := 1 / 2, rV1 := 1 / 2, rV2 := 1 / 10, ok1 := true, ok2 := true }

/-- A concrete tick whose first lead insert is rejected. -/
def tickFail : TickRandE :=
  { rInc := 1 / 2, rV1 := 1 / 2, rV2 := 1 / 10, ok1 := false, ok2 := true }

/-- A concrete message history that never authenticates: a chat message, a parse
failure, an auth message with no userId, and an auth message with a falsy userId. -/
def msgsA : List (Option ClientData) :=
  [some { type := "hello", userId := some "u1" }, none,
   some { type := "auth", userId := none },
   some { type := "auth", userId := some "" }]

/-- Evaluation of the increment at the concrete draw 1/2. -/
theorem incOf_half : incOf (1 / 2) = 3 := by
  unfold incOf
  have h1 : ((1 : ℚ) / 2 * 5) = 5 / 2 := by ring
  have h2 : ⌊(5 / 2 : ℚ)⌋ = 2 := by
    rw [Int.floor_eq_iff]
    constructor <;> norm_num
  rw [h1, h2]
  norm_num

/-- Every draw of the concrete run is in [0, 1). -/
theorem rs10_bounds : ∀ r ∈ rs10, 0 ≤ r.rInc ∧ r.rInc < 1 := by
  intro r hrr
  simp only [rs10, List.mem_cons, List.not_mem_nil, or_false, or_self] at hrr
  subst hrr
  constructor <;> norm_num [tickA]

/-- The concrete run's total increment. -/
theorem sumIncs_rs10 : sumIncs rs10 = 30 := by
  simp only [sumIncs, rs10, tickA, List.map_cons, List.map_nil, List.sum_cons,
    List.sum_nil, incOf_half]
  norm_num

/-- Witness for C1 at the concrete run. -/
theorem completed_run_persists_final_row_witness :
    rowA.status = "completed" ∧ rowA.progress = 100 ∧ rowA.totalPages = 10 ∧
    10 ≤ rowA.leadsFound ∧ rowA.leadsFound ≤ 50 := by
  refine completed_run_persists_final_row "c1" "u1" dbA rs10 rfl rs10_bounds rowA ?_ rfl
  obtain ⟨-, -, -, -, hcamp, -⟩ := runSim_spec "c1" "u1" rs10 (initSim dbA)
    (by simp [rs10]) rfl (by simp [initSim, rs10])
  rw [hcamp]
  refine List.mem_map.mpr ⟨campA, by simp [initSim, dbA], ?_⟩
  rw [sumIncs_rs10]
  simp [runRowUpdate, campA, rowA, initSim, rs10, dbA]

/-- Witness for C2 at the concrete message history. -/
theorem unauthenticated_client_receives_no_broadcast_witness :
    (afterMessages msgsA).userId = none ∧
    deliverOne "u1" (WsMsg.scrapingCompleted "c1") (afterMessages msgsA)
      = afterMessages msgsA := by
  have hno : ∀ d : ClientData, some d ∈ msgsA → isAuthMsg d = false := by
    intro d hd
    simp only [msgsA, List.mem_cons, List.not_mem_nil, or_false,
      Option.some.injEq, reduceCtorEq, false_or] at hd
    rcases hd with rfl | rfl | rfl <;> decide
  have h := unauthenticated_client_receives_no_broadcast msgsA hno
  exact ⟨h.1, h.2.1 "u1" (WsMsg.scrapingCompleted "c1")⟩

/-- Witness for C3 at the concrete store. -/
theorem deleteCampaign_preserves_leads_witness :
    (deleteCampaign dbA "c1").leads = dbA.leads ∧
    findLead (deleteCampaign dbA "c1") "l1" = findLead dbA "l1" ∧
    campB ∈ (deleteCampaign dbA "c1").campaigns := by
  have h := deleteCampaign_preserves_leads dbA "c1"
  exact ⟨h.1, h.2.2.2.1 "l1", h.2.2.1 campB (by decide) (by decide)⟩

/-- Witness for C4 at a concrete failing run. -/
theorem failed_insert_halts_run_witness :
    (runE "c1" "u1" ([tickOkE] ++ tickFail :: [tickOkE]) (initSim dbA)).2
      = some DbError.insertFailed ∧
    (runE "c1" "u1" ([tickOkE] ++ tickFail :: [tickOkE]) (initSim dbA)).1.events
      = (runE "c1" "u1" [tickOkE] (initSim dbA)).1.events := by
  have hstep : (simTickE "c1" "u1" tickOkE (initSim dbA)).2 = none := by
    simp [simTickE, tickOkE, initSim]
  have hpre : runE "c1" "u1" [tickOkE] (initSim dbA)
      = ((runE "c1" "u1" [tickOkE] (initSim dbA)).1, none) := by
    simp [runE, hstep]
  have hstop : (runE "c1" "u1" [tickOkE] (initSim dbA)).1.stopped = false := by
    simp [runE, hstep]
    simp [simTickE, tickOkE, initSim]
  have h := failed_insert_halts_run "c1" "u1" [tickOkE] [tickOkE] tickFail (initSim dbA)
    (runE "c1" "u1" [tickOkE] (initSim dbA)).1 hpre hstop (Or.inl rfl)
  exact ⟨h.1, h.2.1⟩

/-- Witness for C5 at a concrete tick. -/
theorem tick_effects_witness :
    jsProgress ((initSim dbA).currentPage + 1) 10 = 10 * ((initSim dbA).currentPage + 1) ∧
    (validOf (1 / 2) = true ↔ (3 : ℚ) / 10 < 1 / 2) := by
  have h := tick_effects "c1" "u1" tickA (initSim dbA) rfl
  exact ⟨h.2.1, h.2.2.2.2.1 (1 / 2) (by norm_num) (by norm_num)⟩

/-- Witness for C6 at the concrete run. -/
theorem leadsFound_monotone_witness :
    (runSim "c1" "u1" (rs10.take 3) (initSim dbA)).leadsFound
      ≤ (runSim "c1" "u1" (rs10.take 10) (initSim dbA)).leadsFound := by
  have h := leadsFound_monotone "c1" "u1" rs10 (initSim dbA) rfl
    (by simp [initSim, rs10]) rs10_bounds
  exact h.2 3 10 (by norm_num) (by simp [rs10])

/-- Witness for C7 at the concrete store and an arbitrary status string. -/
theorem patch_persists_any_status_witness :
    ((patchCampaignRoute "u1" "c1" (statusUpdate "anything-goes") dbA false).response.status
      = 200) ∧
    rowBogus.status = "anything-goes" := by
  have h := patch_persists_any_status "u1" "c1" "anything-goes" dbA
  exact ⟨h.1, h.2.2 rowBogus (by decide) (by decide)⟩

/-- Witness for C10 at the concrete run. -/
theorem run_inserts_twenty_leads_witness :
    (runSim "c1" "u1" rs10 (initSim dbA)).db.leads.length = dbA.leads.length + 20 ∧
    (runSim "c1" "u1" rs10 (initSim dbA)).leadsFound = sumIncs rs10 := by
  have h := run_inserts_twenty_leads "c1" "u1" dbA rs10 rfl rs10_bounds
  exact ⟨h.2.1, h.2.2.1⟩

end LeadGen
